import Mathlib

/-!
Verification of the streaming match-and-reconcile engine of
`python3_cron_scripts/get_sonar_data_unified.py` (Marinus).

The embedding models the per-line processing of `update_dns` (forward DNS)
and `update_rdns` (reverse DNS): JSON decoding outcomes, field lookup with
Python `KeyError` semantics, `int(...)` coercion with `ValueError`, zone
classification via `find_zone`, and the Mongo store as an explicit list of
entries.  Wall-clock time (`datetime.now()`) is passed explicitly: each line
is processed at a single instant, supplied alongside the line.  Uncaught
Python exceptions are modelled with `Except`: an `Except.error` aborts the
whole run, exactly as an uncaught exception escapes the processing loop.
-/

namespace Sonar

/-- The JSON value found under the `timestamp` key: either a JSON integer or
a JSON string.  Python's `int(x)` succeeds on an int and on an integer
string, and raises `ValueError` otherwise. -/
inductive JsonTimestamp where
  | int (n : Int)
  | str (s : String)
  deriving DecidableEq, Repr

/-- Accumulate the value of a decimal digit string; `none` on the first
non-digit character. -/
def pyDigitsAux : List Char → Nat → Option Nat
  | [], acc => some acc
  | c :: rest, acc =>
    if c.isDigit then pyDigitsAux rest (acc * 10 + (c.toNat - 48)) else none

/-- A non-empty decimal digit string's value. -/
def pyDigits? : List Char → Option Nat
  | [] => none
  | cs => pyDigitsAux cs 0

/-- Python `int(s)` on a string: an optional sign followed by a non-empty
run of decimal digits; anything else raises `ValueError` (`none`). -/
def pyStrToInt? (s : String) : Option Int :=
  match s.data with
  | '-' :: rest => (pyDigits? rest).map (fun n => -(n : Int))
  | '+' :: rest => (pyDigits? rest).map (fun n => (n : Int))
  | cs => (pyDigits? cs).map (fun n => (n : Int))

/-- Python `int(timestamp)`: `some` on success, `none` when `int(...)`
would raise `ValueError`. -/
def JsonTimestamp.toInt? : JsonTimestamp → Option Int
  | .int n => some n
  | .str s => pyStrToInt? s

/-- One successfully decoded JSON object line.  Each field is `none` when
the corresponding key is absent from the dict (so that a lookup raises
`KeyError`). -/
structure DecodedLine where
  type? : Option String
  name? : Option String
  value? : Option String
  timestamp? : Option JsonTimestamp
  deriving DecidableEq, Repr

/-- One raw input line: either undecodable (`json.loads` raises
`ValueError`, caught by the `except ValueError: continue`) or a decoded
JSON object. -/
inductive Line where
  | malformed
  | decoded (d : DecodedLine)
  deriving DecidableEq, Repr

/-- An uncaught Python exception escaping the processing loop. -/
inductive PyError where
  | keyError (k : String)
  | valueError
  deriving DecidableEq, Repr

/-- Python `s.endswith(p)`: `p` is a suffix of `s` (character-wise; Python
strings are sequences of code points, mirrored by `String.data`). -/
def pyEndsWith (s p : String) : Bool :=
  p.data.isSuffixOf s.data

/-- `find_zone(domain, zones)`: first zone `z` (in iteration order) with
`domain.endswith("." + z) or domain == z`; `""` when `domain is None` or
no zone matches. -/
def find_zone (domain : Option String) (zones : List String) : String :=
  match domain with
  | none => ""
  | some d =>
    match zones.find? (fun z => pyEndsWith d ("." ++ z) || d == z) with
    | some z => z
    | none => ""

/-- A persisted `sonar_dns` document built by `update_dns`. -/
structure ForwardEntry where
  fqdn : String
  zone : String
  rtype : String
  status : String
  value : String
  sonar_timestamp : Int
  created : Nat
  deriving DecidableEq, Repr

/-- A persisted `sonar_rdns` document built by `update_rdns`. -/
structure ReverseEntry where
  ip : String
  zone : String
  fqdn : String
  status : String
  sonar_timestamp : Int
  created : Nat
  updated : Nat
  deriving DecidableEq, Repr

/-- One iteration of the `update_dns` loop body, at wall-clock `now`.
Mirrors the source order: `json.loads` (malformed → `continue`), then the
unprotected `data['type']`, then the `try`-block reading `value`/`name` and
classifying (a `KeyError` there yields empty strings), then the unprotected
`data['timestamp']`, then the match test and, on a match, the
`int(timestamp)` coercion and an unconditional insert. -/
def update_dns_line (zones : List String) (now : Nat)
    (store : List ForwardEntry) (line : Line) :
    Except PyError (List ForwardEntry) :=
  match line with
  | .malformed => .ok store
  | .decoded data =>
    match data.type? with
    | none => .error (.keyError "type")
    | some dtype =>
      let vdz : String × String × String :=
        match data.value?, data.name? with
        | some v, some nm => (v, nm, find_zone (some nm) zones)
        | _, _ => ("", "", "")
      let value := vdz.1
      let domain := vdz.2.1
      let zone := vdz.2.2
      match data.timestamp? with
      | none => .error (.keyError "timestamp")
      | some timestamp =>
        if zone != "" && value != "" then
          match timestamp.toInt? with
          | none => .error .valueError
          | some ts =>
            .ok (store ++ [{ fqdn := domain, zone := zone, rtype := dtype,
                             status := "unknown", value := value,
                             sonar_timestamp := ts, created := now }])
        else
          .ok store

/-- `update_dns`: fold the loop body over the lines of the file, each line
paired with the wall-clock instant at which it is processed; an uncaught
exception aborts the run. -/
def update_dns (zones : List String) (store : List ForwardEntry) :
    List (Line × Nat) → Except PyError (List ForwardEntry)
  | [] => .ok store
  | (line, now) :: rest =>
    match update_dns_line zones now store line with
    | .ok store1 => update_dns zones store1 rest
    | .error e => .error e

/-- Mongo `collection.update({"ip": ip}, {"$set": \x7b"fqdn": domain\x7d,
"$currentDate": \x7b"updated": True\x7d})`: rewrite the first document whose
`ip` matches, setting `fqdn` to `domain` and `updated` to now. -/
def updateFirst (store : List ReverseEntry) (ip domain : String) (now : Nat) :
    List ReverseEntry :=
  match store with
  | [] => []
  | e :: rest =>
    if e.ip == ip then { e with fqdn := domain, updated := now } :: rest
    else e :: updateFirst rest ip domain now

/-- One iteration of the `update_rdns` loop body, at wall-clock `now`.
Mirrors the source order: `json.loads` (malformed → `continue`), the
`try`-block reading `value` (the domain) and `name` (the IP) and
classifying (a `KeyError` yields empty strings), the unprotected
`data['timestamp']`, then the match test; on a match, a count-by-ip query
decides between an insert (with the `int(timestamp)` coercion, `created`
and `updated` both taken at the same processing instant) and an update of
`fqdn`/`updated` only. -/
def update_rdns_line (zones : List String) (now : Nat)
    (store : List ReverseEntry) (line : Line) :
    Except PyError (List ReverseEntry) :=
  match line with
  | .malformed => .ok store
  | .decoded data =>
    let diz : String × String × String :=
      match data.value?, data.name? with
      | some v, some nm => (v, nm, find_zone (some v) zones)
      | _, _ => ("", "", "")
    let domain := diz.1
    let ip_addr := diz.2.1
    let zone := diz.2.2
    match data.timestamp? with
    | none => .error (.keyError "timestamp")
    | some timestamp =>
      if zone != "" && domain != "" then
        if store.countP (fun e => e.ip == ip_addr) == 0 then
          match timestamp.toInt? with
          | none => .error .valueError
          | some ts =>
            .ok (store ++ [{ ip := ip_addr, zone := zone, fqdn := domain,
                             status := "unknown", sonar_timestamp := ts,
                             created := now, updated := now }])
        else
          .ok (updateFirst store ip_addr domain now)
      else
        .ok store

/-- `update_rdns`: fold the loop body over the lines of the file. -/
def update_rdns (zones : List String) (store : List ReverseEntry) :
    List (Line × Nat) → Except PyError (List ReverseEntry)
  | [] => .ok store
  | (line, now) :: rest =>
    match update_rdns_line zones now store line with
    | .ok store1 => update_rdns zones store1 rest
    | .error e => .error e

/-- At most one persisted reverse entry per `ip`. -/
def AtMostOnePerIp (store : List ReverseEntry) : Prop :=
  store.Pairwise (fun a b => a.ip ≠ b.ip)

/-- Every persisted forward entry is its zone or a proper subdomain of it. -/
def FwdInvariant (store : List ForwardEntry) : Prop :=
  ∀ e ∈ store, e.fqdn = e.zone ∨ pyEndsWith e.fqdn ("." ++ e.zone) = true

/-! ### Helper lemmas -/

/-- A non-empty result of `find_zone` is a zone of the collection that the
domain matches. -/
lemma find_zone_matches {d z : String} {zones : List String}
    (h : find_zone (some d) zones = z) (hz : z ≠ "") :
    z ∈ zones ∧ (pyEndsWith d ("." ++ z) || d == z) = true := by
  rcases hf : zones.find? (fun z => pyEndsWith d ("." ++ z) || d == z) with _ | w
  · simp only [find_zone, hf] at h
    exact absurd h.symm hz
  · simp only [find_zone, hf] at h
    subst h
    refine ⟨List.mem_of_find?_eq_some hf, ?_⟩
    have h2 := List.find?_some hf
    simpa using h2

/-- `updateFirst` on a store split around the first entry with the given
`ip` rewrites exactly that entry's `fqdn` and `updated` fields. -/
lemma updateFirst_decomp (pre post : List ReverseEntry) (e : ReverseEntry)
    (ip domain : String) (now : Nat)
    (hpre : ∀ x ∈ pre, x.ip ≠ ip) (he : e.ip = ip) :
    updateFirst (pre ++ e :: post) ip domain now =
      pre ++ { e with fqdn := domain, updated := now } :: post := by
  induction pre with
  | nil =>
    simp only [List.nil_append, updateFirst]
    rw [if_pos (by simp [he])]
  | cons a tl ih =>
    have ha : a.ip ≠ ip := hpre a (List.mem_cons_self a tl)
    simp only [List.cons_append, updateFirst]
    rw [if_neg (by simp [ha])]
    exact congrArg (List.cons a)
      (ih (fun x hx => hpre x (List.mem_cons_of_mem a hx)))

/-- `updateFirst` never changes the multiset of `ip` keys. -/
lemma updateFirst_map_ip (store : List ReverseEntry) (ip domain : String)
    (now : Nat) :
    (updateFirst store ip domain now).map (fun e => e.ip) =
      store.map (fun e => e.ip) := by
  induction store with
  | nil => rfl
  | cons a tl ih =>
    by_cases ha : a.ip == ip
    · simp only [updateFirst, if_pos ha, List.map_cons, ih]
    · simp only [updateFirst, if_neg ha, List.map_cons, ih]

/-- A store with a positive count for an `ip` splits around its first
entry with that `ip`. -/
lemma exists_decomp_of_countP_ne_zero {store : List ReverseEntry} {ip : String}
    (h : store.countP (fun e => e.ip == ip) ≠ 0) :
    ∃ pre e post, store = pre ++ e :: post ∧ e.ip = ip ∧
      ∀ x ∈ pre, x.ip ≠ ip := by
  induction store with
  | nil => simp [List.countP_nil] at h
  | cons a tl ih =>
    by_cases ha : a.ip = ip
    · exact ⟨[], a, tl, rfl, ha, by simp⟩
    · have h' : tl.countP (fun e => e.ip == ip) ≠ 0 := by
        rw [List.countP_cons] at h
        simpa [ha] using h
      obtain ⟨pre, e, post, hsplit, he, hpre⟩ := ih h'
      exact ⟨a :: pre, e, post, by rw [hsplit]; rfl, he,
        fun x hx => by
          rcases List.mem_cons.mp hx with hx | hx
          · exact hx ▸ ha
          · exact hpre x hx⟩

/-- `AtMostOnePerIp` only depends on the list of `ip` keys. -/
lemma atMostOnePerIp_iff_map (store : List ReverseEntry) :
    AtMostOnePerIp store ↔ (store.map (fun e => e.ip)).Pairwise (· ≠ ·) := by
  unfold AtMostOnePerIp
  rw [List.pairwise_map]

/-- Forward loop body: a full, matching record is inserted unconditionally. -/
lemma dns_line_insert {data : DecodedLine} {dtype nm v : String}
    {ts : JsonTimestamp} {n : Int} (zones : List String) (now : Nat)
    (store : List ForwardEntry)
    (htype : data.type? = some dtype) (hname : data.name? = some nm)
    (hvalue : data.value? = some v) (hts : data.timestamp? = some ts)
    (hco : ts.toInt? = some n)
    (hzone : find_zone (some nm) zones ≠ "") (hv : v ≠ "") :
    update_dns_line zones now store (.decoded data) =
      .ok (store ++ [{ fqdn := nm, zone := find_zone (some nm) zones,
                       rtype := dtype, status := "unknown", value := v,
                       sonar_timestamp := n, created := now }]) := by
  simp only [update_dns_line, htype, hname, hvalue, hts, hco]
  rw [if_pos (by simp [hzone, hv])]

/-- Forward loop body: `value` or `name` absent (with `type` and
`timestamp` present) skips the line. -/
lemma dns_line_skip_missing {data : DecodedLine} {dtype : String}
    {ts : JsonTimestamp} (zones : List String) (now : Nat)
    (store : List ForwardEntry)
    (htype : data.type? = some dtype) (hts : data.timestamp? = some ts)
    (hmiss : data.value? = none ∨ data.name? = none) :
    update_dns_line zones now store (.decoded data) = .ok store := by
  rcases hmiss with hm | hm
  · simp only [update_dns_line, htype, hm, hts]
    rcases data.name? with _ | nm <;> simp
  · simp only [update_dns_line, htype, hm, hts]
    rcases data.value? with _ | v <;> simp

/-- Forward loop body: a missing `type` key raises an uncaught `KeyError`. -/
lemma dns_line_no_type {data : DecodedLine} (zones : List String) (now : Nat)
    (store : List ForwardEntry) (htype : data.type? = none) :
    update_dns_line zones now store (.decoded data) =
      .error (.keyError "type") := by
  simp [update_dns_line, htype]

/-- Forward loop body: a matching record whose `timestamp` does not coerce
to an integer raises an uncaught `ValueError`. -/
lemma dns_line_bad_ts {data : DecodedLine} {dtype nm v : String}
    {ts : JsonTimestamp} (zones : List String) (now : Nat)
    (store : List ForwardEntry)
    (htype : data.type? = some dtype) (hname : data.name? = some nm)
    (hvalue : data.value? = some v) (hts : data.timestamp? = some ts)
    (hco : ts.toInt? = none)
    (hzone : find_zone (some nm) zones ≠ "") (hv : v ≠ "") :
    update_dns_line zones now store (.decoded data) = .error .valueError := by
  simp only [update_dns_line, htype, hname, hvalue, hts, hco]
  rw [if_pos (by simp [hzone, hv])]

/-- Reverse loop body: a matching record for an unseen `ip` is inserted
with `created` and `updated` both at the processing instant. -/
lemma rdns_line_insert {data : DecodedLine} {domain ip : String}
    {ts : JsonTimestamp} {n : Int} (zones : List String) (now : Nat)
    (store : List ReverseEntry)
    (hvalue : data.value? = some domain) (hname : data.name? = some ip)
    (hts : data.timestamp? = some ts) (hco : ts.toInt? = some n)
    (hzone : find_zone (some domain) zones ≠ "") (hd : domain ≠ "")
    (hnew : store.countP (fun e => e.ip == ip) = 0) :
    update_rdns_line zones now store (.decoded data) =
      .ok (store ++ [{ ip := ip, zone := find_zone (some domain) zones,
                       fqdn := domain, status := "unknown",
                       sonar_timestamp := n, created := now,
                       updated := now }]) := by
  simp only [update_rdns_line, hvalue, hname, hts, hco]
  rw [if_pos (by simp [hzone, hd]), if_pos (by simp [hnew])]

/-- Reverse loop body: a matching record for an already-stored `ip` updates
the first stored entry with that `ip`; the timestamp is never coerced. -/
lemma rdns_line_update {data : DecodedLine} {domain ip : String}
    {ts : JsonTimestamp} (zones : List String) (now : Nat)
    (store : List ReverseEntry)
    (hvalue : data.value? = some domain) (hname : data.name? = some ip)
    (hts : data.timestamp? = some ts)
    (hzone : find_zone (some domain) zones ≠ "") (hd : domain ≠ "")
    (hold : store.countP (fun e => e.ip == ip) ≠ 0) :
    update_rdns_line zones now store (.decoded data) =
      .ok (updateFirst store ip domain now) := by
  simp only [update_rdns_line, hvalue, hname, hts]
  rw [if_pos (by simp [hzone, hd]), if_neg (by simp [hold])]

/-- Reverse loop body: `value` or `name` absent (with `timestamp` present)
skips the line. -/
lemma rdns_line_skip_missing {data : DecodedLine} {ts : JsonTimestamp}
    (zones : List String) (now : Nat) (store : List ReverseEntry)
    (hts : data.timestamp? = some ts)
    (hmiss : data.value? = none ∨ data.name? = none) :
    update_rdns_line zones now store (.decoded data) = .ok store := by
  rcases hmiss with hm | hm
  · simp only [update_rdns_line, hm, hts]
    rcases data.name? with _ | nm <;> simp
  · simp only [update_rdns_line, hm, hts]
    rcases data.value? with _ | v <;> simp

/-- Forward loop body: a full record whose `name` matches no tracked zone
is skipped, its `timestamp` never being coerced. -/
lemma dns_line_no_match {data : DecodedLine} {dtype nm v : String}
    {ts : JsonTimestamp} (zones : List String) (now : Nat)
    (store : List ForwardEntry)
    (htype : data.type? = some dtype) (hname : data.name? = some nm)
    (hvalue : data.value? = some v) (hts : data.timestamp? = some ts)
    (hzone : find_zone (some nm) zones = "") :
    update_dns_line zones now store (.decoded data) = .ok store := by
  simp only [update_dns_line, htype, hname, hvalue, hts, hzone]
  rw [if_neg (by simp)]

/-- Reverse loop body: a matching record for an unseen `ip` whose
`timestamp` does not coerce raises an uncaught `ValueError`. -/
lemma rdns_line_bad_ts {data : DecodedLine} {domain ip : String}
    {ts : JsonTimestamp} (zones : List String) (now : Nat)
    (store : List ReverseEntry)
    (hvalue : data.value? = some domain) (hname : data.name? = some ip)
    (hts : data.timestamp? = some ts) (hco : ts.toInt? = none)
    (hzone : find_zone (some domain) zones ≠ "") (hd : domain ≠ "")
    (hnew : store.countP (fun e => e.ip == ip) = 0) :
    update_rdns_line zones now store (.decoded data) = .error .valueError := by
  simp only [update_rdns_line, hvalue, hname, hts, hco]
  rw [if_pos (by simp [hzone, hd]), if_pos (by simp [hnew])]

/-! ### Claim theorems -/

/-- **C6**: `find_zone` returns the first zone, in the collection's
iteration order, that the domain equals or ends with `"."` followed by the
zone; it returns the no-match result `""` when no zone matches — in
particular `"foo.notexample.com"` does not match zone `"example.com"` —
and an absent (`None`) domain always yields no-match, never an error. -/
theorem find_zone_correct :
    (∀ zones, find_zone none zones = "") ∧
    (∀ d z pre post,
        (∀ z1 ∈ pre, (pyEndsWith d ("." ++ z1) || d == z1) = false) →
        (pyEndsWith d ("." ++ z) || d == z) = true →
        find_zone (some d) (pre ++ z :: post) = z) ∧
    (∀ d zones,
        (∀ z1 ∈ zones, (pyEndsWith d ("." ++ z1) || d == z1) = false) →
        find_zone (some d) zones = "") ∧
    find_zone (some "foo.notexample.com") ["example.com"] = "" := by
  refine ⟨fun _ => rfl, ?_, ?_, by decide⟩
  · intro d z pre post hpre hz
    have hnone : pre.find? (fun z1 => pyEndsWith d ("." ++ z1) || d == z1)
        = none :=
      List.find?_eq_none.mpr (fun x hx => by simp [hpre x hx])
    have hfind : (pre ++ z :: post).find?
        (fun z1 => pyEndsWith d ("." ++ z1) || d == z1) = some z := by
      rw [List.find?_append, hnone, List.find?_cons_of_pos _ (by simpa using hz)]
      rfl
    simp [find_zone, hfind]
  · intro d zones hno
    have hfind : zones.find? (fun z1 => pyEndsWith d ("." ++ z1) || d == z1)
        = none :=
      List.find?_eq_none.mpr (fun x hx => by simp [hno x hx])
    simp [find_zone, hfind]

/-- Witness for **C6**: the hypotheses of the first-match and no-match
parts hold at concrete inputs. -/
theorem find_zone_correct_witness :
    find_zone (some "a.example.com")
      (["other.org"] ++ "example.com" :: ["com"]) = "example.com" ∧
    find_zone (some "nomatch.net") ["example.com"] = "" :=
  ⟨find_zone_correct.2.1 "a.example.com" "example.com" ["other.org"] ["com"]
      (by decide) (by decide),
   find_zone_correct.2.2.1 "nomatch.net" ["example.com"] (by decide)⟩

/-- **C7**: an input line that cannot be decoded (invalid JSON) is skipped
with no store write, and the stream is not aborted: the fold continues
with the remaining lines, in both modes. -/
theorem malformed_line_skipped :
    (∀ zones now store,
        update_dns_line zones now store .malformed = .ok store) ∧
    (∀ zones now store,
        update_rdns_line zones now store .malformed = .ok store) ∧
    (∀ zones store now rest,
        update_dns zones store ((Line.malformed, now) :: rest) =
          update_dns zones store rest) ∧
    (∀ zones store now rest,
        update_rdns zones store ((Line.malformed, now) :: rest) =
          update_rdns zones store rest) :=
  ⟨fun _ _ _ => rfl, fun _ _ _ => rfl, fun _ _ _ _ => rfl, fun _ _ _ _ => rfl⟩

/-- **C1 counterexample**: a successfully decoded forward-mode line that is
merely missing the required `type` field does *not* get skipped: the
unprotected `data['type']` lookup raises a `KeyError` that aborts the whole
run — the following fully valid matching line is never processed. -/
theorem missing_type_aborts_cex :
    update_dns ["example.com"] []
      [(.decoded { type? := none, name? := some "foo.example.com",
                   value? := some "10.0.0.1",
                   timestamp? := some (.int 100) }, 0),
       (.decoded { type? := some "a", name? := some "bar.example.com",
                   value? := some "10.0.0.2",
                   timestamp? := some (.int 101) }, 1)] =
      .error (.keyError "type") := by rfl

/-- **C1 (amended)**: a decoded line missing `value` or `name` is skipped
with no store write and processing continues (in forward mode provided the
unprotected `type` and `timestamp` lookups succeed, in reverse mode
provided the unprotected `timestamp` lookup succeeds); but a forward-mode
decoded line missing `type` raises an uncaught `KeyError` that aborts the
run. -/
theorem missing_field_handling :
    (∀ zones now store (data : DecodedLine) dtype ts,
        data.type? = some dtype → data.timestamp? = some ts →
        (data.value? = none ∨ data.name? = none) →
        update_dns_line zones now store (.decoded data) = .ok store) ∧
    (∀ zones now store (data : DecodedLine) ts,
        data.timestamp? = some ts →
        (data.value? = none ∨ data.name? = none) →
        update_rdns_line zones now store (.decoded data) = .ok store) ∧
    (∀ zones store (data : DecodedLine) dtype ts now rest,
        data.type? = some dtype → data.timestamp? = some ts →
        (data.value? = none ∨ data.name? = none) →
        update_dns zones store ((Line.decoded data, now) :: rest) =
          update_dns zones store rest) ∧
    (∀ zones store (data : DecodedLine) ts now rest,
        data.timestamp? = some ts →
        (data.value? = none ∨ data.name? = none) →
        update_rdns zones store ((Line.decoded data, now) :: rest) =
          update_rdns zones store rest) ∧
    (∀ zones now store (data : DecodedLine),
        data.type? = none →
        update_dns_line zones now store (.decoded data) =
          .error (.keyError "type")) := by
  refine ⟨fun zones now store data dtype ts ht hts hm =>
      dns_line_skip_missing zones now store ht hts hm,
    fun zones now store data ts hts hm =>
      rdns_line_skip_missing zones now store hts hm,
    ?_, ?_,
    fun zones now store data ht => dns_line_no_type zones now store ht⟩
  · intro zones store data dtype ts now rest ht hts hm
    have h := dns_line_skip_missing zones now store ht hts hm
    simp only [update_dns, h]
  · intro zones store data ts now rest hts hm
    have h := rdns_line_skip_missing zones now store hts hm
    simp only [update_rdns, h]

/-- Witness for **C1 (amended)** at concrete inputs. -/
theorem missing_field_handling_witness :
    update_dns_line ["example.com"] 0 []
      (.decoded { type? := some "a", name? := none,
                  value? := some "10.0.0.1",
                  timestamp? := some (.int 1) }) = .ok [] ∧
    update_rdns_line ["example.com"] 0 []
      (.decoded { type? := none, name? := some "10.0.0.1", value? := none,
                  timestamp? := some (.int 1) }) = .ok [] ∧
    update_dns_line ["example.com"] 0 []
      (.decoded { type? := none, name? := some "foo.example.com",
                  value? := some "10.0.0.1",
                  timestamp? := some (.int 1) }) =
      .error (.keyError "type") :=
  ⟨missing_field_handling.1 ["example.com"] 0 [] _ "a" (.int 1) rfl rfl
      (Or.inr rfl),
   missing_field_handling.2.1 ["example.com"] 0 [] _ (.int 1) rfl
      (Or.inl rfl),
   missing_field_handling.2.2.2.2 ["example.com"] 0 [] _ rfl⟩

/-- **C2 counterexample**: a decoded, otherwise fully valid matching line
whose `timestamp` is present but not coercible to an integer is *not*
merely skipped: the uncaught `ValueError` from `int(timestamp)` aborts the
run — the following fully valid line is never processed. -/
theorem invalid_timestamp_aborts_cex :
    update_dns ["example.com"] []
      [(.decoded { type? := some "a", name? := some "foo.example.com",
                   value? := some "10.0.0.1",
                   timestamp? := some (.str "notanumber") }, 0),
       (.decoded { type? := some "a", name? := some "bar.example.com",
                   value? := some "10.0.0.2",
                   timestamp? := some (.int 101) }, 1)] =
      .error .valueError := by rfl

/-- **C2 (amended)**: a present-but-non-integer `timestamp` aborts the run
(uncaught `ValueError`) on a matching forward-mode line, and on a matching
reverse-mode line whose `ip` is not yet stored; on a matching reverse-mode
line whose `ip` is already stored the timestamp is never coerced and the
line is fully processed (the stored entry is overwritten); on a
non-matching forward-mode line the timestamp is never coerced and the line
is skipped. -/
theorem invalid_timestamp_handling :
    (∀ zones now store (data : DecodedLine) dtype nm v ts,
        data.type? = some dtype → data.name? = some nm →
        data.value? = some v → data.timestamp? = some ts →
        JsonTimestamp.toInt? ts = none →
        find_zone (some nm) zones ≠ "" → v ≠ "" →
        update_dns_line zones now store (.decoded data) =
          .error .valueError) ∧
    (∀ zones now store (data : DecodedLine) domain ip ts,
        data.value? = some domain → data.name? = some ip →
        data.timestamp? = some ts → JsonTimestamp.toInt? ts = none →
        find_zone (some domain) zones ≠ "" → domain ≠ "" →
        store.countP (fun e => e.ip == ip) = 0 →
        update_rdns_line zones now store (.decoded data) =
          .error .valueError) ∧
    (∀ zones now store (data : DecodedLine) domain ip ts,
        data.value? = some domain → data.name? = some ip →
        data.timestamp? = some ts →
        find_zone (some domain) zones ≠ "" → domain ≠ "" →
        store.countP (fun e => e.ip == ip) ≠ 0 →
        update_rdns_line zones now store (.decoded data) =
          .ok (updateFirst store ip domain now)) ∧
    (∀ zones now store (data : DecodedLine) dtype nm v ts,
        data.type? = some dtype → data.name? = some nm →
        data.value? = some v → data.timestamp? = some ts →
        find_zone (some nm) zones = "" →
        update_dns_line zones now store (.decoded data) = .ok store) :=
  ⟨fun zones now store data dtype nm v ts ht hn hv hts hco hz hne =>
      dns_line_bad_ts zones now store ht hn hv hts hco hz hne,
   fun zones now store data domain ip ts hv hn hts hco hz hd hc =>
      rdns_line_bad_ts zones now store hv hn hts hco hz hd hc,
   fun zones now store data domain ip ts hv hn hts hz hd hc =>
      rdns_line_update zones now store hv hn hts hz hd hc,
   fun zones now store data dtype nm v ts ht hn hv hts hz =>
      dns_line_no_match zones now store ht hn hv hts hz⟩

/-- Witness for **C2 (amended)** at concrete inputs. -/
theorem invalid_timestamp_handling_witness :
    update_dns_line ["example.com"] 0 []
      (.decoded { type? := some "a", name? := some "foo.example.com",
                  value? := some "10.0.0.1",
                  timestamp? := some (.str "notanumber") }) =
      .error .valueError ∧
    update_rdns_line ["example.com"] 0 []
      (.decoded { type? := none, name? := some "10.0.0.1",
                  value? := some "foo.example.com",
                  timestamp? := some (.str "notanumber") }) =
      .error .valueError ∧
    update_rdns_line ["example.com"] 9
      [{ ip := "10.0.0.1", zone := "example.com", fqdn := "old.example.com",
         status := "unknown", sonar_timestamp := 50, created := 1,
         updated := 1 }]
      (.decoded { type? := none, name? := some "10.0.0.1",
                  value? := some "foo.example.com",
                  timestamp? := some (.str "notanumber") }) =
      .ok [{ ip := "10.0.0.1", zone := "example.com",
             fqdn := "foo.example.com", status := "unknown",
             sonar_timestamp := 50, created := 1, updated := 9 }] ∧
    update_dns_line ["example.com"] 0 []
      (.decoded { type? := some "a", name? := some "foo.other.org",
                  value? := some "10.0.0.1",
                  timestamp? := some (.str "notanumber") }) = .ok [] :=
  ⟨invalid_timestamp_handling.1 ["example.com"] 0 [] _ "a" "foo.example.com"
      "10.0.0.1" (.str "notanumber") rfl rfl rfl rfl rfl (by decide)
      (by decide),
   invalid_timestamp_handling.2.1 ["example.com"] 0 [] _ "foo.example.com"
      "10.0.0.1" (.str "notanumber") rfl rfl rfl rfl (by decide) (by decide)
      (by decide),
   invalid_timestamp_handling.2.2.1 ["example.com"] 9 _ _ "foo.example.com"
      "10.0.0.1" (.str "notanumber") rfl rfl rfl (by decide) (by decide)
      (by decide),
   invalid_timestamp_handling.2.2.2 ["example.com"] 0 [] _ "a"
      "foo.other.org" "10.0.0.1" (.str "notanumber") rfl rfl rfl rfl
      (by decide)⟩

/-- **C3**: a forward-mode decoded line whose `name` matches a tracked
zone and whose `value` is non-empty is inserted unconditionally, with
`fqdn` the name, `zone` the matched zone, the record's `type`, status
`"unknown"`, the record's `value`, the integer-coerced timestamp, and the
processing instant as `created`; no existence check is made, so the same
line ingested twice in one run yields two persisted entries. -/
theorem update_dns_matching_inserts (zones : List String)
    (data : DecodedLine) (dtype nm v : String) (ts : JsonTimestamp)
    (n : Int) (t1 t2 : Nat) (store : List ForwardEntry)
    (htype : data.type? = some dtype) (hname : data.name? = some nm)
    (hvalue : data.value? = some v) (hts : data.timestamp? = some ts)
    (hco : ts.toInt? = some n)
    (hzone : find_zone (some nm) zones ≠ "") (hv : v ≠ "") :
    update_dns_line zones t1 store (.decoded data) =
      .ok (store ++ [{ fqdn := nm, zone := find_zone (some nm) zones,
                       rtype := dtype, status := "unknown", value := v,
                       sonar_timestamp := n, created := t1 }]) ∧
    update_dns zones store [(.decoded data, t1), (.decoded data, t2)] =
      .ok (store ++
        [{ fqdn := nm, zone := find_zone (some nm) zones, rtype := dtype,
           status := "unknown", value := v, sonar_timestamp := n,
           created := t1 },
         { fqdn := nm, zone := find_zone (some nm) zones, rtype := dtype,
           status := "unknown", value := v, sonar_timestamp := n,
           created := t2 }]) := by
  have h1 := dns_line_insert zones t1 store htype hname hvalue hts hco hzone hv
  have h2 := dns_line_insert zones t2
    (store ++ [{ fqdn := nm, zone := find_zone (some nm) zones,
                 rtype := dtype, status := "unknown", value := v,
                 sonar_timestamp := n, created := t1 }])
    htype hname hvalue hts hco hzone hv
  refine ⟨h1, ?_⟩
  simp only [update_dns, h1, h2, List.append_assoc, List.singleton_append,
    List.cons_append, List.nil_append]

/-- Witness for **C3**: the spec's own scenario, run twice. -/
theorem update_dns_matching_inserts_witness :
    update_dns ["example.com"] []
      [(.decoded { type? := some "a", name? := some "foo.example.com",
                   value? := some "10.0.0.1",
                   timestamp? := some (.int 100) }, 5),
       (.decoded { type? := some "a", name? := some "foo.example.com",
                   value? := some "10.0.0.1",
                   timestamp? := some (.int 100) }, 6)] =
      .ok [{ fqdn := "foo.example.com",
             zone := find_zone (some "foo.example.com") ["example.com"],
             rtype := "a", status := "unknown", value := "10.0.0.1",
             sonar_timestamp := 100, created := 5 },
           { fqdn := "foo.example.com",
             zone := find_zone (some "foo.example.com") ["example.com"],
             rtype := "a", status := "unknown", value := "10.0.0.1",
             sonar_timestamp := 100, created := 6 }] :=
  (update_dns_matching_inserts ["example.com"] _ "a" "foo.example.com"
    "10.0.0.1" (.int 100) 100 5 6 [] rfl rfl rfl rfl rfl (by decide)
    (by decide)).2

/-- **C8**: the first-ever reverse-mode observation of an `ip` inserts a
single new entry whose `created` and `updated` fields are equal (both the
processing instant), with status `"unknown"` and `sonar_timestamp` taken
from the record. -/
theorem rdns_first_observation (zones : List String) (now : Nat)
    (store : List ReverseEntry) (data : DecodedLine) (domain ip : String)
    (ts : JsonTimestamp) (n : Int)
    (hvalue : data.value? = some domain) (hname : data.name? = some ip)
    (hts : data.timestamp? = some ts) (hco : ts.toInt? = some n)
    (hzone : find_zone (some domain) zones ≠ "") (hd : domain ≠ "")
    (hnew : store.countP (fun e => e.ip == ip) = 0) :
    ∃ e : ReverseEntry,
      update_rdns_line zones now store (.decoded data) =
        .ok (store ++ [e]) ∧
      e.ip = ip ∧ e.zone = find_zone (some domain) zones ∧
      e.fqdn = domain ∧ e.status = "unknown" ∧ e.sonar_timestamp = n ∧
      e.created = now ∧ e.updated = now ∧ e.created = e.updated :=
  ⟨_, rdns_line_insert zones now store hvalue hname hts hco hzone hd hnew,
    rfl, rfl, rfl, rfl, rfl, rfl, rfl, rfl⟩

/-- Witness for **C8** at a concrete input. -/
theorem rdns_first_observation_witness :
    ∃ e : ReverseEntry,
      update_rdns_line ["example.com"] 3 []
        (.decoded { type? := none, name? := some "10.0.0.1",
                    value? := some "bar.example.com",
                    timestamp? := some (.int 200) }) = .ok ([] ++ [e]) ∧
      e.ip = "10.0.0.1" ∧
      e.zone = find_zone (some "bar.example.com") ["example.com"] ∧
      e.fqdn = "bar.example.com" ∧ e.status = "unknown" ∧
      e.sonar_timestamp = 200 ∧ e.created = 3 ∧ e.updated = 3 ∧
      e.created = e.updated :=
  rdns_first_observation ["example.com"] 3 [] _ "bar.example.com"
    "10.0.0.1" (.int 200) 200 rfl rfl rfl rfl (by decide) (by decide) rfl

/-- **C5**: when a matching reverse-mode record's `ip` already has a
persisted entry, the store write rewrites exactly the first entry with
that `ip`, changing only its `fqdn` (to the record's domain) and `updated`
(to the processing instant); its `ip`, `zone`, `status`, `created` and
`sonar_timestamp` are untouched, and every other entry of the store is
left exactly as it was. -/
theorem rdns_existing_update_frame (zones : List String) (now : Nat)
    (store : List ReverseEntry) (data : DecodedLine) (domain ip : String)
    (ts : JsonTimestamp)
    (hvalue : data.value? = some domain) (hname : data.name? = some ip)
    (hts : data.timestamp? = some ts)
    (hzone : find_zone (some domain) zones ≠ "") (hd : domain ≠ "")
    (pre : List ReverseEntry) (e : ReverseEntry) (post : List ReverseEntry)
    (hsplit : store = pre ++ e :: post)
    (hpre : ∀ x ∈ pre, x.ip ≠ ip) (he : e.ip = ip) :
    update_rdns_line zones now store (.decoded data) =
      .ok (pre ++ { e with fqdn := domain, updated := now } :: post) := by
  subst hsplit
  have hold : (pre ++ e :: post).countP (fun x => x.ip == ip) ≠ 0 := by
    simp only [List.countP_append, List.countP_cons]
    simp [he]
  rw [rdns_line_update zones now (pre ++ e :: post) hvalue hname hts hzone
      hd hold,
    updateFirst_decomp pre post e ip domain now hpre he]

/-- Witness for **C5** at a concrete two-entry store. -/
theorem rdns_existing_update_frame_witness :
    update_rdns_line ["example.com"] 9
      [{ ip := "10.0.0.9", zone := "example.com", fqdn := "a.example.com",
         status := "confirmed", sonar_timestamp := 10, created := 1,
         updated := 2 },
       { ip := "10.0.0.1", zone := "example.com", fqdn := "b.example.com",
         status := "unknown", sonar_timestamp := 20, created := 3,
         updated := 4 }]
      (.decoded { type? := none, name? := some "10.0.0.1",
                  value? := some "new.example.com",
                  timestamp? := some (.int 999) }) =
      .ok [{ ip := "10.0.0.9", zone := "example.com",
             fqdn := "a.example.com", status := "confirmed",
             sonar_timestamp := 10, created := 1, updated := 2 },
           { ip := "10.0.0.1", zone := "example.com",
             fqdn := "new.example.com", status := "unknown",
             sonar_timestamp := 20, created := 3, updated := 9 }] :=
  rdns_existing_update_frame ["example.com"] 9 _ _ "new.example.com"
    "10.0.0.1" (.int 999) rfl rfl rfl (by decide) (by decide)
    [{ ip := "10.0.0.9", zone := "example.com", fqdn := "a.example.com",
       status := "confirmed", sonar_timestamp := 10, created := 1,
       updated := 2 }]
    { ip := "10.0.0.1", zone := "example.com", fqdn := "b.example.com",
      status := "unknown", sonar_timestamp := 20, created := 3,
      updated := 4 }
    [] rfl (by decide) rfl

/-- **C10**: the reverse-mode policy never checks that the IP is
non-empty: a decoded line whose `name` is the empty string but whose
`value` (domain) matches a tracked zone still causes a store write keyed
by `ip = ""`, creating or updating a persisted entry whose `ip` is the
empty string and whose `fqdn` is the record's domain. -/
theorem rdns_empty_ip_write (zones : List String) (now : Nat)
    (store : List ReverseEntry) (data : DecodedLine) (domain : String)
    (ts : JsonTimestamp) (n : Int)
    (hvalue : data.value? = some domain) (hname : data.name? = some "")
    (hts : data.timestamp? = some ts) (hco : ts.toInt? = some n)
    (hzone : find_zone (some domain) zones ≠ "") (hd : domain ≠ "") :
    ∃ store1,
      update_rdns_line zones now store (.decoded data) = .ok store1 ∧
      ∃ e ∈ store1, e.ip = "" ∧ e.fqdn = domain := by
  by_cases hc : store.countP (fun e => e.ip == "") = 0
  · refine ⟨_, rdns_line_insert zones now store hvalue hname hts hco hzone
      hd hc, ?_⟩
    exact ⟨_, List.mem_append_right _ (List.mem_singleton.mpr rfl), rfl, rfl⟩
  · obtain ⟨pre, e, post, hsplit, he, hpre⟩ :=
      exists_decomp_of_countP_ne_zero hc
    refine ⟨_, rdns_line_update zones now store hvalue hname hts hzone hd
      hc, ?_⟩
    rw [hsplit, updateFirst_decomp pre post e "" domain now hpre he]
    exact ⟨{ e with fqdn := domain, updated := now },
      List.mem_append_right _ (List.mem_cons_self _ _), he, rfl⟩

/-- Witness for **C10** at a concrete input: an empty store receives an
entry keyed by the empty IP. -/
theorem rdns_empty_ip_write_witness :
    ∃ store1,
      update_rdns_line ["example.com"] 7 []
        (.decoded { type? := none, name? := some "",
                    value? := some "foo.example.com",
                    timestamp? := some (.int 100) }) = .ok store1 ∧
      ∃ e ∈ store1, e.ip = "" ∧ e.fqdn = "foo.example.com" :=
  rdns_empty_ip_write ["example.com"] 7 [] _ "foo.example.com" (.int 100)
    100 rfl rfl rfl rfl (by decide) (by decide)

/-- Single-step preservation of the forward subdomain invariant. -/
lemma dns_line_preserves_inv {zones : List String} {now : Nat}
    {store store1 : List ForwardEntry} {line : Line}
    (hinv : FwdInvariant store)
    (h : update_dns_line zones now store line = .ok store1) :
    FwdInvariant store1 := by
  cases line with
  | malformed =>
    simp only [update_dns_line] at h
    injection h with h
    exact h ▸ hinv
  | decoded data =>
    rcases ht : data.type? with _ | dtype
    · simp [update_dns_line, ht] at h
    rcases hts : data.timestamp? with _ | ts
    · simp [update_dns_line, ht, hts] at h
    rcases hv : data.value? with _ | v <;> rcases hn : data.name? with _ | nm
    · simp [update_dns_line, ht, hts, hv, hn] at h
      exact h ▸ hinv
    · simp [update_dns_line, ht, hts, hv, hn] at h
      exact h ▸ hinv
    · simp [update_dns_line, ht, hts, hv, hn] at h
      exact h ▸ hinv
    · simp only [update_dns_line, ht, hts, hv, hn] at h
      split at h
      case isTrue hcond =>
        rcases hc : ts.toInt? with _ | n
        · rw [hc] at h
          exact absurd h (by simp)
        · rw [hc] at h
          injection h with h
          subst h
          intro e he
          rcases List.mem_append.mp he with he | he
          · exact hinv e he
          · have he' := List.mem_singleton.mp he
            subst he'
            rw [Bool.and_eq_true] at hcond
            have hzne : find_zone (some nm) zones ≠ "" := by
              simpa using hcond.1
            obtain ⟨_, hmatch⟩ := find_zone_matches rfl hzne
            rw [Bool.or_eq_true] at hmatch
            rcases hmatch with hm | hm
            · exact Or.inr hm
            · exact Or.inl (by simpa using hm)
      case isFalse hcond =>
        injection h with h
        exact h ▸ hinv

/-- **C9**: every forward entry ever persisted by a run of the engine has
an `fqdn` equal to its `zone` or ending with `"."` followed by its `zone`;
starting from any store satisfying this invariant, the whole ingestion
fold preserves it. -/
theorem update_dns_subdomain_invariant (zones : List String)
    (lines : List (Line × Nat)) (store store1 : List ForwardEntry)
    (hinv : FwdInvariant store)
    (h : update_dns zones store lines = .ok store1) :
    FwdInvariant store1 := by
  induction lines generalizing store with
  | nil =>
    simp only [update_dns] at h
    injection h with h
    exact h ▸ hinv
  | cons p rest ih =>
    obtain ⟨line, now⟩ := p
    simp only [update_dns] at h
    rcases hline : update_dns_line zones now store line with e | store2 <;>
      rw [hline] at h
    · exact absurd h (by simp)
    · exact ih store2 (dns_line_preserves_inv hinv hline) h

/-- Witness for **C9** at a concrete run. -/
theorem update_dns_subdomain_invariant_witness :
    FwdInvariant [{ fqdn := "foo.example.com", zone := "example.com",
                    rtype := "a", status := "unknown", value := "10.0.0.1",
                    sonar_timestamp := 100, created := 5 }] :=
  update_dns_subdomain_invariant ["example.com"]
    [(.decoded { type? := some "a", name? := some "foo.example.com",
                 value? := some "10.0.0.1",
                 timestamp? := some (.int 100) }, 5)]
    [] _ (by intro e he; cases he) (by rfl)

/-- Single-step preservation of the at-most-one-entry-per-ip invariant. -/
lemma rdns_line_preserves_unique {zones : List String} {now : Nat}
    {store store1 : List ReverseEntry} {line : Line}
    (hinv : AtMostOnePerIp store)
    (h : update_rdns_line zones now store line = .ok store1) :
    AtMostOnePerIp store1 := by
  cases line with
  | malformed =>
    simp only [update_rdns_line] at h
    injection h with h
    exact h ▸ hinv
  | decoded data =>
    rcases hts : data.timestamp? with _ | ts
    · simp [update_rdns_line, hts] at h
    rcases hv : data.value? with _ | domain <;>
      rcases hn : data.name? with _ | ip
    · simp [update_rdns_line, hts, hv, hn] at h
      exact h ▸ hinv
    · simp [update_rdns_line, hts, hv, hn] at h
      exact h ▸ hinv
    · simp [update_rdns_line, hts, hv, hn] at h
      exact h ▸ hinv
    · simp only [update_rdns_line, hv, hn, hts] at h
      split at h
      case isTrue hcond =>
        split at h
        case isTrue hcount =>
          rcases hc : ts.toInt? with _ | n
          · rw [hc] at h
            exact absurd h (by simp)
          · rw [hc] at h
            injection h with h
            subst h
            have hall : ∀ x ∈ store, x.ip ≠ ip := by simpa using hcount
            unfold AtMostOnePerIp
            rw [List.pairwise_append]
            refine ⟨hinv, List.pairwise_singleton _ _, ?_⟩
            intro a ha b hb
            have hb' := List.mem_singleton.mp hb
            subst hb'
            exact hall a ha
        case isFalse hcount =>
          injection h with h
          subst h
          rw [atMostOnePerIp_iff_map, updateFirst_map_ip]
          exact (atMostOnePerIp_iff_map store).mp hinv
      case isFalse hcond =>
        injection h with h
        exact h ▸ hinv

/-- **C4**: every store write of the reverse-mode engine preserves the
at-most-one-entry-per-`ip` invariant; and ingesting two valid matching
lines with the same IP and different domains in one run leaves exactly one
persisted entry for that IP, whose `fqdn` is the domain of the **later**
line (and whose `created`/`sonar_timestamp` come from the first). -/
theorem rdns_unique_ip_last_write_wins :
    (∀ (zones : List String) (now : Nat)
        (store store1 : List ReverseEntry) (line : Line),
        AtMostOnePerIp store →
        update_rdns_line zones now store line = .ok store1 →
        AtMostOnePerIp store1) ∧
    (∀ (zones : List String) (data1 data2 : DecodedLine)
        (d1 d2 ip : String) (ts1 ts2 : JsonTimestamp) (n1 : Int)
        (t1 t2 : Nat) (store : List ReverseEntry),
        data1.value? = some d1 → data1.name? = some ip →
        data1.timestamp? = some ts1 → JsonTimestamp.toInt? ts1 = some n1 →
        data2.value? = some d2 → data2.name? = some ip →
        data2.timestamp? = some ts2 →
        find_zone (some d1) zones ≠ "" → d1 ≠ "" →
        find_zone (some d2) zones ≠ "" → d2 ≠ "" →
        store.countP (fun e => e.ip == ip) = 0 →
        update_rdns zones store
            [(.decoded data1, t1), (.decoded data2, t2)] =
          .ok (store ++
            [{ ip := ip, zone := find_zone (some d1) zones, fqdn := d2,
               status := "unknown", sonar_timestamp := n1, created := t1,
               updated := t2 }]) ∧
        (store ++
            [({ ip := ip, zone := find_zone (some d1) zones, fqdn := d2,
                status := "unknown", sonar_timestamp := n1, created := t1,
                updated := t2 } : ReverseEntry)]).filter
            (fun e => e.ip == ip) =
          [({ ip := ip, zone := find_zone (some d1) zones, fqdn := d2,
              status := "unknown", sonar_timestamp := n1, created := t1,
              updated := t2 } : ReverseEntry)]) := by
  constructor
  · exact fun zones now store store1 line hinv h =>
      rdns_line_preserves_unique hinv h
  · intro zones data1 data2 d1 d2 ip ts1 ts2 n1 t1 t2 store
      hv1 hn1 ht1 hc1 hv2 hn2 ht2 hz1 hd1 hz2 hd2 hcount
    have hall : ∀ x ∈ store, x.ip ≠ ip := by
      have h0 := List.countP_eq_zero.mp hcount
      intro x hx
      simpa using h0 x hx
    have h1 := rdns_line_insert zones t1 store hv1 hn1 ht1 hc1 hz1 hd1 hcount
    have hcount2 : (store ++
        [({ ip := ip, zone := find_zone (some d1) zones, fqdn := d1,
            status := "unknown", sonar_timestamp := n1, created := t1,
            updated := t1 } : ReverseEntry)]).countP
          (fun e => e.ip == ip) ≠ 0 := by
      simp [List.countP_append, List.countP_cons]
    have h2 := rdns_line_update zones t2 (store ++
        [({ ip := ip, zone := find_zone (some d1) zones, fqdn := d1,
            status := "unknown", sonar_timestamp := n1, created := t1,
            updated := t1 } : ReverseEntry)]) hv2 hn2 ht2 hz2 hd2 hcount2
    have hupd : updateFirst (store ++
        [({ ip := ip, zone := find_zone (some d1) zones, fqdn := d1,
            status := "unknown", sonar_timestamp := n1, created := t1,
            updated := t1 } : ReverseEntry)]) ip d2 t2 =
        store ++
          [({ ip := ip, zone := find_zone (some d1) zones, fqdn := d2,
              status := "unknown", sonar_timestamp := n1, created := t1,
              updated := t2 } : ReverseEntry)] := by
      have hdec := updateFirst_decomp store []
        ({ ip := ip, zone := find_zone (some d1) zones, fqdn := d1,
           status := "unknown", sonar_timestamp := n1, created := t1,
           updated := t1 } : ReverseEntry) ip d2 t2 hall rfl
      simpa using hdec
    constructor
    · simp only [update_rdns, h1, h2, hupd]
    · have hnil : store.filter (fun e => e.ip == ip) = [] :=
        List.filter_eq_nil_iff.mpr (fun a ha => by simp [hall a ha])
      simp [List.filter_append, hnil]

/-- Witness for **C4**: the spec's own reverse scenario, plus a concrete
single-step invariant preservation. -/
theorem rdns_unique_ip_last_write_wins_witness :
    AtMostOnePerIp
      [{ ip := "10.0.0.1",
         zone := find_zone (some "bar.example.com") ["example.com"],
         fqdn := "bar.example.com", status := "unknown",
         sonar_timestamp := 200, created := 1, updated := 1 }] ∧
    (update_rdns ["example.com"] []
        [(.decoded { type? := none, name? := some "10.0.0.1",
                     value? := some "bar.example.com",
                     timestamp? := some (.int 200) }, 1),
         (.decoded { type? := none, name? := some "10.0.0.1",
                     value? := some "baz.example.com",
                     timestamp? := some (.int 300) }, 2)] =
      .ok ([] ++
        [{ ip := "10.0.0.1",
           zone := find_zone (some "bar.example.com") ["example.com"],
           fqdn := "baz.example.com", status := "unknown",
           sonar_timestamp := 200, created := 1, updated := 2 }]) ∧
    ([] ++
        [({ ip := "10.0.0.1",
            zone := find_zone (some "bar.example.com") ["example.com"],
            fqdn := "baz.example.com", status := "unknown",
            sonar_timestamp := 200, created := 1,
            updated := 2 } : ReverseEntry)]).filter
        (fun e => e.ip == "10.0.0.1") =
      [({ ip := "10.0.0.1",
          zone := find_zone (some "bar.example.com") ["example.com"],
          fqdn := "baz.example.com", status := "unknown",
          sonar_timestamp := 200, created := 1,
          updated := 2 } : ReverseEntry)]) :=
  ⟨rdns_unique_ip_last_write_wins.1 ["example.com"] 1 [] _
      (.decoded { type? := none, name? := some "10.0.0.1",
                  value? := some "bar.example.com",
                  timestamp? := some (.int 200) })
      (by simp [AtMostOnePerIp]) (by rfl),
   rdns_unique_ip_last_write_wins.2 ["example.com"] _ _ "bar.example.com"
      "baz.example.com" "10.0.0.1" (.int 200) (.int 300) 200 1 2 []
      rfl rfl rfl rfl rfl rfl rfl (by decide) (by decide) (by decide)
      (by decide) rfl⟩

end Sonar
